import Mathlib

/-!
Verification of the DEX trading bot core: the pattern scheduler
(`bot/session_runner.py`, `bot/models.py`) and the swap execution protocol
(`bot/dex_client.py`).  Python floats are modelled by exact rationals (ℚ);
Python `Decimal` arithmetic (default context: 28 significant digits,
round-half-even) is modelled exactly; stateful code is modelled by explicit
state passing, and the interactions with the chain node are modelled by an
oracle describing the outcome of each RPC call together with the emitted
event trace.
-/

namespace DexBot

/-- `SessionConfig` from `bot/models.py`: per-user trading parameters.
Floats are modelled as rationals. -/
structure SessionConfig where
  user_id : Int
  total_liquidity : ℚ
  trade_pct : ℚ
  interval_seconds : Nat
  slippage_bps : Nat
  min_notional : ℚ
  max_position : Option ℚ
deriving DecidableEq, Repr

/-- `SessionConfig.get_trade_amount`: `total_liquidity * (trade_pct / 100.0)`. -/
def getTradeAmount (cfg : SessionConfig) : ℚ :=
  cfg.total_liquidity * (cfg.trade_pct / 100)

/-- `SessionState` from `bot/models.py`: runtime state of a trading session.
Timestamps are modelled as abstract `Option Nat` instants. -/
structure SessionState where
  user_id : Int
  active : Bool
  trades_executed : Nat
  spent_notional : ℚ
  received_quote : ℚ
  base_position_delta : ℚ
  pattern_index : Nat
  started_at : Option Nat
  stopped_at : Option Nat
  last_error : Option String
deriving DecidableEq, Repr

/-- The fresh default `SessionState(user_id=user_id)` returned by
`Database.get_session_state` when no row exists (`bot/db.py`). -/
def initialState (uid : Int) : SessionState :=
  { user_id := uid
    active := false
    trades_executed := 0
    spent_notional := 0
    received_quote := 0
    base_position_delta := 0
    pattern_index := 0
    started_at := none
    stopped_at := none
    last_error := none }

/-- The local `pattern` list inside `SessionState.get_current_side`
(`bot/models.py` line 66). -/
def modelsPattern : List String := ["BUY", "BUY", "SELL", "SELL"]

/-- `SessionState.get_current_side`: `pattern[self.pattern_index % 4]`. -/
def getCurrentSide (s : SessionState) : String :=
  modelsPattern.get
    ⟨s.pattern_index % 4, by simp only [modelsPattern, List.length_cons, List.length_nil]; omega⟩

/-- `SessionState.advance_pattern`: `self.pattern_index += 1`. -/
def advancePattern (s : SessionState) : SessionState :=
  { s with pattern_index := s.pattern_index + 1 }

/-- `SessionState.get_net_quote`: `received_quote - spent_notional`. -/
def getNetQuote (s : SessionState) : ℚ :=
  s.received_quote - s.spent_notional

/-- `SessionState.reset` from `bot/models.py`. -/
def resetState (s : SessionState) : SessionState :=
  { s with
    active := false
    trades_executed := 0
    spent_notional := 0
    received_quote := 0
    base_position_delta := 0
    pattern_index := 0
    started_at := none
    stopped_at := none
    last_error := none }

/-- `TradeRecord` from `bot/models.py`. -/
structure TradeRecord where
  id : Option Nat
  user_id : Int
  side : String
  amount_in : ℚ
  amount_out : ℚ
  tx_hash : String
  timestamp : Option Nat
  gas_used : Option Nat
  gas_price_gwei : Option ℚ
  execution_price : Option ℚ
deriving DecidableEq, Repr

/-- `TRADING_PATTERN` from `bot/session_runner.py` line 21. -/
def TRADING_PATTERN : List String := ["BUY", "BUY", "SELL", "SELL"]

/-- The side computation of the scheduler loop
(`bot/session_runner.py` line 176): `TRADING_PATTERN[pattern_index % 4]`. -/
def loopSide (n : Nat) : String :=
  TRADING_PATTERN.get
    ⟨n % 4, by simp only [TRADING_PATTERN, List.length_cons, List.length_nil]; omega⟩

/-- The four-step cycle exactly as the spec words it:
side(n) = [BUY, BUY, SELL, SELL][n mod 4].  Kept separate from the two
source-derived definitions above so the claim compares spec against source. -/
def specSidePattern : List String := ["BUY", "BUY", "SELL", "SELL"]

/-- `DexClient.get_balances` (`bot/dex_client.py` lines 121-148), success
path: raw integer balances divided by `10 ** decimals` of each token. -/
def getBalances (baseRaw quoteRaw baseDecimals quoteDecimals : Nat) : ℚ × ℚ :=
  ((baseRaw : ℚ) / 10 ^ baseDecimals, (quoteRaw : ℚ) / 10 ^ quoteDecimals)

/-! Model of Python `Decimal` arithmetic for the slippage bound
(`bot/dex_client.py` lines 411-413 and 525-527):
`slippage_multiplier = Decimal(10000 - slippage_bps) / Decimal(10000)`
`amount_out_min = int(Decimal(expected_out) * slippage_multiplier)`
under the default decimal context (28 significant digits, half-even). -/

/-- Number of decimal digits of `n` (0 for `n = 0`). -/
def numDigits (n : Nat) : Nat :=
  if n = 0 then 0 else Nat.log 10 n + 1

/-- Round `n / d` to the nearest integer, ties to even
(the `ROUND_HALF_EVEN` rounding of the default decimal context). -/
def roundHalfEven (n d : Nat) : Nat :=
  let q := n / d
  let r := n % d
  if 2 * r < d then q
  else if d < 2 * r then q + 1
  else if q % 2 = 0 then q else q + 1

/-- The 10-adic valuation of `k` capped at 4: the exact quotient
`k / 10^4` is normalised by `Decimal` division to the minimal coefficient
`k / 10^t` with exponent `t - 4`. -/
def v10cap4 (k : Nat) : Nat :=
  if k % 10 ≠ 0 then 0
  else if k % 100 ≠ 0 then 1
  else if k % 1000 ≠ 0 then 2
  else if k % 10000 ≠ 0 then 3
  else 4

/-- `int(Decimal(expected_out) * (Decimal(10000 - slippage_bps) / Decimal(10000)))`
under the default decimal context: the exact product has coefficient
`expected_out * m` (where `m` is the multiplier's minimal coefficient) and
exponent `t - 4`; if the coefficient exceeds 28 digits it is rounded
half-even to 28 significant digits before truncation to an integer. -/
def decimalAmountOutMin (expected_out slippage_bps : Nat) : Nat :=
  let k := 10000 - slippage_bps
  let t := v10cap4 k
  let m := k / 10 ^ t
  let P := expected_out * m
  if numDigits P ≤ 28 then P / 10 ^ (4 - t)
  else
    let s := numDigits P - 28
    let C := roundHalfEven P (10 ^ s)
    if 4 - t ≤ s then C * 10 ^ (s - (4 - t)) else C / 10 ^ (4 - t - s)

/-! Model of `_parse_swap_amounts_from_receipt`
(`bot/dex_client.py` lines 231-376). -/

/-- `keccak("Transfer(address,address,uint256)")`, the ERC-20 Transfer
event signature compared against `topics[0]`. -/
def transferSig : Nat :=
  0xddf252ad1be2c89b69c2b068fc378daa952ba7f163c4a11628f55a4df523b3ef

/-- One receipt log entry.  `topics` are 32-byte words as integers;
`addrDecodeOk = false` models the `try`/`except` around extracting the
from/to addresses raising; `valueDecode = none` models the `try`/`except`
around `process_log` raising. -/
structure LogEntry where
  address : Nat
  topics : List Nat
  addrDecodeOk : Bool
  valueDecode : Option Nat
deriving DecidableEq, Repr

/-- Last 20 bytes of a 32-byte topic word: the embedded address. -/
def topicAddress (t : Nat) : Nat := t % 2 ^ 160

/-- Processing of a single log in the scan loop of
`_parse_swap_amounts_from_receipt`: accumulates matching input and output
transfers, skipping anything that is not a decodable three-topic Transfer
event. -/
def processLog (tokenIn tokenOut wallet : Nat) (acc : List Nat × List Nat)
    (log : LogEntry) : List Nat × List Nat :=
  match log.topics with
  | [t0, t1, t2] =>
    if t0 ≠ transferSig then acc
    else if log.addrDecodeOk = false then acc
    else
      match log.valueDecode with
      | none => acc
      | some v =>
        let fromAddress := topicAddress t1
        let toAddress := topicAddress t2
        let acc1 :=
          if log.address = tokenIn ∧ fromAddress = wallet then
            (acc.1 ++ [v], acc.2)
          else acc
        if log.address = tokenOut ∧ toAddress = wallet then
          (acc1.1, acc1.2 ++ [v])
        else acc1
  | _ => acc

/-- The `input_transfers` and `output_transfers` lists collected over all
logs of the receipt. -/
def collectTransfers (logs : List LogEntry) (tokenIn tokenOut wallet : Nat) :
    List Nat × List Nat :=
  logs.foldl (processLog tokenIn tokenOut wallet) ([], [])

/-- `_parse_swap_amounts_from_receipt`: the largest matching transfer on
each side; `(none, none)` when either side is missing or a parsed amount is
not positive. -/
def parseSwapAmountsFromReceipt (logs : List LogEntry) (tokenIn tokenOut wallet : Nat) :
    Option Nat × Option Nat :=
  let transfers := collectTransfers logs tokenIn tokenOut wallet
  match transfers.1.max?, transfers.2.max? with
  | some ai, some ao => if ai = 0 ∨ ao = 0 then (none, none) else (some ai, some ao)
  | _, _ => (none, none)

/-- The tail of `swap_exact_quote_for_base` / `swap_exact_base_for_quote`
(`bot/dex_client.py` lines 455-470 and 570-585): use the parsed on-chain
amounts when available, otherwise fall back to the pre-trade `amount_in`
and router-quoted `expected_out`; the boolean records whether the
high-severity reconciliation diagnostic was emitted. -/
def finalizeSwapAmounts (parsed : Option Nat × Option Nat)
    (amountInRaw expectedOut decIn decOut : Nat) : ℚ × ℚ × Bool :=
  match parsed with
  | (some ai, some ao) => ((ai : ℚ) / 10 ^ decIn, (ao : ℚ) / 10 ^ decOut, false)
  | _ => ((amountInRaw : ℚ) / 10 ^ decIn, (expectedOut : ℚ) / 10 ^ decOut, true)

/-- Reconciliation result of a mined swap: receipt parsing composed with
the fallback, as executed at the end of both swap operations. -/
def swapReconciledAmounts (logs : List LogEntry) (tokenIn tokenOut wallet : Nat)
    (amountInRaw expectedOut decIn decOut : Nat) : ℚ × ℚ × Bool :=
  finalizeSwapAmounts (parseSwapAmountsFromReceipt logs tokenIn tokenOut wallet)
    amountInRaw expectedOut decIn decOut

/-! Trace model of the chain interactions of one swap call
(`bot/dex_client.py`): which node operations run, in order, including the
retry wrapper `_rpc_call_with_retry` (lines 96-107) that re-issues a
read-only call with exponential backoff up to `RPC_MAX_RETRIES` times. -/

/-- The chain-node operations a swap call can perform. -/
inductive ChainEvent where
  | readAllowance
  | readQuote
  | readBalance
  | readPrice
  | readBlock
  | readNonce
  | readGasPrice
  | submitApproval
  | submitSwap
  | waitReceipt
deriving DecidableEq, Repr

/-- Attempts made by `_rpc_call_with_retry` when the wrapped call fails
`failures` times before succeeding: one per failure plus the successful
one, capped at `maxRetries`. -/
def rpcAttemptCount (failures maxRetries : Nat) : Nat :=
  min (failures + 1) maxRetries

/-- Whether `_rpc_call_with_retry` returns (rather than re-raising after
exhausting all `maxRetries` attempts). -/
def rpcRetrySucceeds (failures maxRetries : Nat) : Bool :=
  failures < maxRetries

/-- The events emitted by one `_rpc_call_with_retry` invocation wrapping
the read-only call `ev`. -/
def rpcCallWithRetryTrace (ev : ChainEvent) (failures maxRetries : Nat) : List ChainEvent :=
  List.replicate (rpcAttemptCount failures maxRetries) ev

/-- Oracle for one `ensure_allowance` call: how often the allowance read
fails, whether the existing allowance suffices, and whether each
non-retried step raises. -/
structure AllowOracle where
  allowanceFailures : Nat
  sufficient : Bool
  nonceOk : Bool
  gasPriceOk : Bool
  sendOk : Bool
  receiptOk : Bool
  statusOk : Bool
deriving DecidableEq, Repr

/-- Oracle for one swap call: the `ensure_allowance` sub-oracle, the
failure count of the quote read, and whether each non-retried step raises. -/
structure SwapOracle where
  allow : AllowOracle
  quoteFailures : Nat
  blockOk : Bool
  nonceOk : Bool
  gasPriceOk : Bool
  sendOk : Bool
deriving DecidableEq, Repr

/-- Event trace of `ensure_allowance` (`bot/dex_client.py` lines 176-229)
and whether it returns normally: retried allowance read, then (only if the
allowance is insufficient) nonce and gas-price reads, a single
`send_raw_transaction` of the approval, and one confirmation wait; the
call raises if the mined status is not 1. -/
def ensureAllowanceTrace (o : AllowOracle) (maxRetries : Nat) : List ChainEvent × Bool :=
  let tAllow := rpcCallWithRetryTrace .readAllowance o.allowanceFailures maxRetries
  if rpcRetrySucceeds o.allowanceFailures maxRetries = false then (tAllow, false)
  else if o.sufficient then (tAllow, true)
  else if o.nonceOk = false then (tAllow ++ [.readNonce], false)
  else if o.gasPriceOk = false then (tAllow ++ [.readNonce, .readGasPrice], false)
  else if o.sendOk = false then
    (tAllow ++ [.readNonce, .readGasPrice, .submitApproval], false)
  else if o.receiptOk = false then
    (tAllow ++ [.readNonce, .readGasPrice, .submitApproval, .waitReceipt], false)
  else (tAllow ++ [.readNonce, .readGasPrice, .submitApproval, .waitReceipt], o.statusOk)

/-- Event trace of `swap_exact_quote_for_base`
(`bot/dex_client.py` lines 378-488): `ensure_allowance`, the retried
`getAmountsOut` quote, the deadline block read, nonce and gas-price reads,
a single un-retried `send_raw_transaction` of the signed swap, and one
confirmation wait.  An exception at any step truncates the trace. -/
def swapSubmitTrace (o : SwapOracle) (maxRetries : Nat) : List ChainEvent :=
  let a := ensureAllowanceTrace o.allow maxRetries
  if a.2 = false then a.1
  else
    let t := a.1 ++ rpcCallWithRetryTrace .readQuote o.quoteFailures maxRetries
    if rpcRetrySucceeds o.quoteFailures maxRetries = false then t
    else if o.blockOk = false then t ++ [.readBlock]
    else if o.nonceOk = false then t ++ [.readBlock, .readNonce]
    else if o.gasPriceOk = false then t ++ [.readBlock, .readNonce, .readGasPrice]
    else if o.sendOk = false then
      t ++ [.readBlock, .readNonce, .readGasPrice, .submitSwap]
    else t ++ [.readBlock, .readNonce, .readGasPrice, .submitSwap, .waitReceipt]

/-- Event trace of `swap_exact_base_for_quote`
(`bot/dex_client.py` lines 490-603): it first calls `get_price` (a retried
quote of one base unit, lines 150-174) and then performs the same protocol
as the BUY swap with the token roles swapped. -/
def sellSwapSubmitTrace (o : SwapOracle) (priceFailures maxRetries : Nat) : List ChainEvent :=
  let tPrice := rpcCallWithRetryTrace .readPrice priceFailures maxRetries
  if rpcRetrySucceeds priceFailures maxRetries = false then tPrice
  else tPrice ++ swapSubmitTrace o maxRetries

/-! Model of one iteration of `SessionRunner._run_session_loop`
(`bot/session_runner.py` lines 141-318). -/

/-- The balances dict returned by `get_balances`. -/
structure Balances where
  base : ℚ
  quote : ℚ
deriving DecidableEq, Repr

/-- The normalized result dict of a swap operation. -/
structure SwapResult where
  amount_in : ℚ
  amount_out : ℚ
  tx_hash : String
  gas_used : Nat
  gas_price_gwei : ℚ
deriving DecidableEq, Repr

/-- Environment of one loop iteration: the global max-trades guard, the
current instant, and the outcomes of the chain calls the iteration may
make (`none` models the call raising). -/
structure LoopEnv where
  now : Nat
  maxTradesPerSession : Nat
  balances : Option Balances
  price : Option ℚ
  buyResult : Option SwapResult
  sellResult : Option SwapResult
deriving DecidableEq, Repr

/-- What one loop iteration did: `exitInactive` and the `stop*` outcomes
break out of the loop; `skipMaxPosition` and `traded` continue to the
inter-trade sleep. -/
inductive StepOutcome where
  | exitInactive
  | stopMaxTrades
  | stopBelowMin
  | stopBalancesError
  | stopInsufficientQuote
  | skipMaxPosition
  | stopInsufficientBase
  | traded (record : TradeRecord)
  | stopTradeError
deriving DecidableEq, Repr

/-- Whether the outcome proceeds to the sleep and the next iteration. -/
def continuesLoop : StepOutcome → Bool
  | .skipMaxPosition => true
  | .traded _ => true
  | _ => false

/-- `SessionRunner._stop_with_message` (lines 320-327): deactivate and
stamp `stopped_at`. -/
def stopWithMessage (st : SessionState) (now : Nat) : SessionState :=
  { st with active := false, stopped_at := some now }

/-- `SessionRunner._stop_with_error` (lines 329-341): deactivate, stamp
`stopped_at` and record `last_error`. -/
def stopWithError (st : SessionState) (now : Nat) (err : String) : SessionState :=
  { st with active := false, stopped_at := some now, last_error := some err }

/-- The BUY execution block (lines 226-233 and 263-299): swap, accumulate
`spent_notional` and `base_position_delta`, record the trade, bump
`trades_executed` and `pattern_index`, clear `last_error`. -/
def execBuy (st : SessionState) (env : LoopEnv) : SessionState × StepOutcome :=
  match env.buyResult with
  | none => (stopWithError st env.now "Trade failed", .stopTradeError)
  | some result =>
    let st1 := { st with
      spent_notional := st.spent_notional + result.amount_in
      base_position_delta := st.base_position_delta + result.amount_out }
    let record : TradeRecord := {
      id := none
      user_id := st.user_id
      side := "BUY"
      amount_in := result.amount_in
      amount_out := result.amount_out
      tx_hash := result.tx_hash
      timestamp := some env.now
      gas_used := some result.gas_used
      gas_price_gwei := some result.gas_price_gwei
      execution_price := some (result.amount_out / result.amount_in) }
    ({ st1 with
        trades_executed := st1.trades_executed + 1
        pattern_index := st1.pattern_index + 1
        last_error := none },
      .traded record)

/-- The SELL execution block (lines 254-299): swap, accumulate
`received_quote`, subtract the base sold, record the trade, bump counters. -/
def execSell (st : SessionState) (env : LoopEnv) : SessionState × StepOutcome :=
  match env.sellResult with
  | none => (stopWithError st env.now "Trade failed", .stopTradeError)
  | some result =>
    let st1 := { st with
      received_quote := st.received_quote + result.amount_out
      base_position_delta := st.base_position_delta - result.amount_in }
    let record : TradeRecord := {
      id := none
      user_id := st.user_id
      side := "SELL"
      amount_in := result.amount_in
      amount_out := result.amount_out
      tx_hash := result.tx_hash
      timestamp := some env.now
      gas_used := some result.gas_used
      gas_price_gwei := some result.gas_price_gwei
      execution_price := some (result.amount_in / result.amount_out) }
    ({ st1 with
        trades_executed := st1.trades_executed + 1
        pattern_index := st1.pattern_index + 1
        last_error := none },
      .traded record)

/-- One iteration of `_run_session_loop` over the freshly re-read state
`st`: active check, max-trades guard, side selection, minimum-notional
guard, balance fetch, per-side balance guards, optional max-position skip
on BUY, and trade execution.  Returns the persisted state and the outcome. -/
def loopIter (cfg : SessionConfig) (st : SessionState) (env : LoopEnv) :
    SessionState × StepOutcome :=
  if st.active = false then (st, .exitInactive)
  else if env.maxTradesPerSession ≤ st.trades_executed then
    (stopWithMessage st env.now, .stopMaxTrades)
  else
    let side := loopSide st.pattern_index
    let trade_notional := getTradeAmount cfg
    if trade_notional < cfg.min_notional then
      (stopWithMessage st env.now, .stopBelowMin)
    else
      match env.balances with
      | none => (stopWithError st env.now "Failed to get balances", .stopBalancesError)
      | some balances =>
        if side = "BUY" then
          if balances.quote < trade_notional then
            (stopWithMessage st env.now, .stopInsufficientQuote)
          else
            match cfg.max_position with
            | some maxPos =>
              if maxPos ≤ balances.base then (advancePattern st, .skipMaxPosition)
              else execBuy st env
            | none => execBuy st env
        else
          match env.price with
          | none => (stopWithError st env.now "Trade failed", .stopTradeError)
          | some price =>
            if price = 0 then (stopWithError st env.now "Trade failed", .stopTradeError)
            else
              let base_needed := trade_notional / price
              if balances.base < base_needed then
                (stopWithMessage st env.now, .stopInsufficientBase)
              else execSell st env

/-- `SessionRunner.start_session` (`bot/session_runner.py` lines 65-111):
returns the boolean result, the persisted session state, and whether a
background trading loop thread was started. -/
def startSession (threadAlive : Bool) (cfg : Option SessionConfig)
    (st : SessionState) (now : Nat) : Bool × SessionState × Bool :=
  if threadAlive then (false, st, false)
  else
    match cfg with
    | none => (false, st, false)
    | some _ =>
      let st1 := if st.active = false then resetState st else st
      let st2 := { st1 with active := true, started_at := some now }
      (true, st2, true)

/-- `SessionRunner.stop_session` (`bot/session_runner.py` lines 113-134):
no-op returning `False` when the persisted state is inactive, otherwise
deactivate and stamp `stopped_at`. -/
def stopSession (st : SessionState) (now : Nat) : Bool × SessionState :=
  if st.active = false then (false, st)
  else (true, { st with active := false, stopped_at := some now })

/-- C3: for every n ≥ 0, the trade side selected at pattern_index = n equals
[BUY, BUY, SELL, SELL][n mod 4], both in `SessionState.get_current_side` and
in the scheduler loop's side computation. -/
theorem c3_pattern_side :
    (∀ st : SessionState, getCurrentSide st = specSidePattern.get
      ⟨st.pattern_index % 4, by
        simp only [specSidePattern, List.length_cons, List.length_nil]; omega⟩) ∧
    (∀ n : Nat, loopSide n = specSidePattern.get
      ⟨n % 4, by simp only [specSidePattern, List.length_cons, List.length_nil]; omega⟩) := by
  constructor
  · intro st
    have h : st.pattern_index % 4 = 0 ∨ st.pattern_index % 4 = 1 ∨
        st.pattern_index % 4 = 2 ∨ st.pattern_index % 4 = 3 := by omega
    rcases h with h | h | h | h <;>
      simp [getCurrentSide, modelsPattern, specSidePattern, h]
  · intro n
    have h : n % 4 = 0 ∨ n % 4 = 1 ∨ n % 4 = 2 ∨ n % 4 = 3 := by omega
    rcases h with h | h | h | h <;>
      simp [loopSide, TRADING_PATTERN, specSidePattern, h]

/-- C5: `get_balances` returns the base and quote balances in human-scale
units equal to the raw on-chain integer divided by 10^decimals of the
respective token. -/
theorem c5_get_balances_scaling (baseRaw quoteRaw baseDecimals quoteDecimals : Nat) :
    (getBalances baseRaw quoteRaw baseDecimals quoteDecimals).1 * 10 ^ baseDecimals = baseRaw ∧
    (getBalances baseRaw quoteRaw baseDecimals quoteDecimals).2 * 10 ^ quoteDecimals = quoteRaw := by
  constructor
  · exact div_mul_cancel₀ _ (pow_ne_zero _ (by norm_num : (10 : ℚ) ≠ 0))
  · exact div_mul_cancel₀ _ (pow_ne_zero _ (by norm_num : (10 : ℚ) ≠ 0))

/-- C8: starting a session for a user with no stored configuration fails
(returns False), performs no mutation of the persisted session state, and
starts no trading loop. -/
theorem c8_start_without_config (threadAlive : Bool) (st : SessionState) (now : Nat) :
    startSession threadAlive none st now = (false, st, false) := by
  cases threadAlive <;> simp [startSession]

/-- C9: stopping a session whose persisted state is not active is a no-op
that reports a not-running result and leaves the state unchanged; hence
stopping twice in a row leaves the same final state as stopping once. -/
theorem c9_stop_idempotent :
    (∀ (st : SessionState) (now : Nat), st.active = false →
      stopSession st now = (false, st)) ∧
    (∀ (st : SessionState) (n1 n2 : Nat),
      (stopSession (stopSession st n1).2 n2).2 = (stopSession st n1).2) := by
  constructor
  · intro st now h
    simp [stopSession, h]
  · intro st n1 n2
    by_cases h : st.active = false <;> simp [stopSession, h]

/-- Witness for C9 at a concrete inactive state. -/
theorem c9_stop_idempotent_witness :
    (initialState 7).active = false ∧ stopSession (initialState 7) 3 = (false, initialState 7) :=
  ⟨rfl, c9_stop_idempotent.1 (initialState 7) 3 rfl⟩

/-- C10: `_parse_swap_amounts_from_receipt` is total over the receipt's
logs and returns either (None, None) or a pair of strictly positive
amounts; undecodable or non-Transfer logs are skipped, and any parsed pair
with a non-positive amount is rejected in favour of (None, None). -/
theorem c10_parse_total_positive (logs : List LogEntry) (tokenIn tokenOut wallet : Nat) :
    parseSwapAmountsFromReceipt logs tokenIn tokenOut wallet = (none, none) ∨
    ∃ a b, parseSwapAmountsFromReceipt logs tokenIn tokenOut wallet = (some a, some b) ∧
      0 < a ∧ 0 < b := by
  simp only [parseSwapAmountsFromReceipt]
  rcases hin : (collectTransfers logs tokenIn tokenOut wallet).1.max? with _ | a
  · left
    rfl
  · rcases hout : (collectTransfers logs tokenIn tokenOut wallet).2.max? with _ | b
    · left
      rfl
    · by_cases hz : a = 0 ∨ b = 0
      · left
        simp [hz]
      · right
        push_neg at hz
        exact ⟨a, b, by simp [hz], by omega, by omega⟩

/-- The loop's side is BUY exactly on the first two positions of the cycle. -/
theorem loopSide_buy_of_mod (n : Nat) (h : n % 4 = 0 ∨ n % 4 = 1) :
    loopSide n = "BUY" := by
  rcases h with h | h <;> simp [loopSide, TRADING_PATTERN, h]

/-- C6: a Running iteration whose trade notional is strictly below the
configured min_notional transitions the session to Stopped with the
below-minimum outcome, executes no swap, and leaves trades_executed
unchanged. -/
theorem c6_below_min_stops (cfg : SessionConfig) (st : SessionState) (env : LoopEnv)
    (hactive : st.active = true)
    (hmax : st.trades_executed < env.maxTradesPerSession)
    (hmin : getTradeAmount cfg < cfg.min_notional) :
    loopIter cfg st env = (stopWithMessage st env.now, .stopBelowMin) ∧
    (loopIter cfg st env).1.trades_executed = st.trades_executed ∧
    (loopIter cfg st env).1.active = false ∧
    continuesLoop (loopIter cfg st env).2 = false := by
  have hmax2 : ¬(env.maxTradesPerSession ≤ st.trades_executed) := by omega
  have h1 : loopIter cfg st env = (stopWithMessage st env.now, .stopBelowMin) := by
    simp [loopIter, hactive, hmax2, hmin]
  refine ⟨h1, ?_, ?_, ?_⟩ <;> rw [h1] <;> simp [stopWithMessage, continuesLoop]

/-- Witness for C6 at a concrete configuration whose notional 20 is below
min_notional 100. -/
theorem c6_below_min_stops_witness :
    (⟨1, true, 0, 0, 0, 0, 0, some 0, none, none⟩ : SessionState).active = true ∧
    (0 : Nat) < 1000 ∧
    getTradeAmount ⟨1, 1000, 2, 60, 50, 100, none⟩ < (100 : ℚ) ∧
    loopIter ⟨1, 1000, 2, 60, 50, 100, none⟩ ⟨1, true, 0, 0, 0, 0, 0, some 0, none, none⟩
        ⟨5, 1000, none, none, none, none⟩
      = (stopWithMessage ⟨1, true, 0, 0, 0, 0, 0, some 0, none, none⟩ 5, .stopBelowMin) := by
  refine ⟨rfl, by norm_num, by norm_num [getTradeAmount], ?_⟩
  exact (c6_below_min_stops ⟨1, 1000, 2, 60, 50, 100, none⟩
    ⟨1, true, 0, 0, 0, 0, 0, some 0, none, none⟩ ⟨5, 1000, none, none, none, none⟩
    rfl (by norm_num) (by norm_num [getTradeAmount])).1

/-- C7: a Running BUY iteration with a configured max_position already
reached (and sufficient quote balance) executes no swap, increments
pattern_index by exactly one, leaves all trading statistics and the active
flag unchanged, and continues the loop rather than stopping. -/
theorem c7_max_position_skip (cfg : SessionConfig) (st : SessionState) (env : LoopEnv)
    (bal : Balances) (maxPos : ℚ)
    (hactive : st.active = true)
    (hmax : st.trades_executed < env.maxTradesPerSession)
    (hmin : cfg.min_notional ≤ getTradeAmount cfg)
    (hbal : env.balances = some bal)
    (hside : st.pattern_index % 4 = 0 ∨ st.pattern_index % 4 = 1)
    (hquote : getTradeAmount cfg ≤ bal.quote)
    (hpos : cfg.max_position = some maxPos)
    (hreach : maxPos ≤ bal.base) :
    loopIter cfg st env = (advancePattern st, .skipMaxPosition) ∧
    (loopIter cfg st env).1.pattern_index = st.pattern_index + 1 ∧
    (loopIter cfg st env).1.trades_executed = st.trades_executed ∧
    (loopIter cfg st env).1.spent_notional = st.spent_notional ∧
    (loopIter cfg st env).1.received_quote = st.received_quote ∧
    (loopIter cfg st env).1.base_position_delta = st.base_position_delta ∧
    (loopIter cfg st env).1.active = st.active ∧
    continuesLoop (loopIter cfg st env).2 = true := by
  have hmax2 : ¬(env.maxTradesPerSession ≤ st.trades_executed) := by omega
  have hmin2 : ¬(getTradeAmount cfg < cfg.min_notional) := not_lt.2 hmin
  have hquote2 : ¬(bal.quote < getTradeAmount cfg) := not_lt.2 hquote
  have hbuy : loopSide st.pattern_index = "BUY" := loopSide_buy_of_mod _ hside
  have h1 : loopIter cfg st env = (advancePattern st, .skipMaxPosition) := by
    simp [loopIter, hactive, hmax2, hmin2, hbal, hbuy, hquote2, hpos, hreach]
  refine ⟨h1, ?_, ?_, ?_, ?_, ?_, ?_, ?_⟩ <;> rw [h1] <;>
    simp [advancePattern, continuesLoop, hactive]

/-- Witness for C7 at a concrete state: max_position 5 already reached by
base balance 10, quote balance 100 covering notional 20. -/
theorem c7_max_position_skip_witness :
    loopIter ⟨1, 1000, 2, 60, 50, 10, some 5⟩ ⟨1, true, 0, 0, 0, 0, 0, some 0, none, none⟩
        ⟨5, 1000, some ⟨10, 100⟩, none, none, none⟩
      = (advancePattern ⟨1, true, 0, 0, 0, 0, 0, some 0, none, none⟩, .skipMaxPosition) :=
  (c7_max_position_skip ⟨1, 1000, 2, 60, 50, 10, some 5⟩
    ⟨1, true, 0, 0, 0, 0, 0, some 0, none, none⟩ ⟨5, 1000, some ⟨10, 100⟩, none, none, none⟩
    ⟨10, 100⟩ 5 rfl (by norm_num) (by norm_num [getTradeAmount]) rfl (Or.inl rfl)
    (by norm_num [getTradeAmount]) rfl (by norm_num)).1

/-- C4: when the receipt of a mined swap yields no identifiable input
transfer or no identifiable output transfer, the swap does not raise: the
result falls back to the pre-trade input amount and the router's pre-trade
quoted expected output with the reconciliation diagnostic recorded, and a
loop iteration receiving a normal swap result counts the trade as a
success and continues the session. -/
theorem c4_reconciliation_fallback (logs : List LogEntry)
    (tokenIn tokenOut wallet amountInRaw expectedOut decIn decOut : Nat)
    (hfail : (collectTransfers logs tokenIn tokenOut wallet).1 = [] ∨
             (collectTransfers logs tokenIn tokenOut wallet).2 = []) :
    swapReconciledAmounts logs tokenIn tokenOut wallet amountInRaw expectedOut decIn decOut
      = ((amountInRaw : ℚ) / 10 ^ decIn, (expectedOut : ℚ) / 10 ^ decOut, true) ∧
    ∀ (cfg : SessionConfig) (st : SessionState) (env : LoopEnv) (bal : Balances)
        (r : SwapResult),
      st.active = true →
      st.trades_executed < env.maxTradesPerSession →
      cfg.min_notional ≤ getTradeAmount cfg →
      env.balances = some bal →
      st.pattern_index % 4 = 0 ∨ st.pattern_index % 4 = 1 →
      getTradeAmount cfg ≤ bal.quote →
      cfg.max_position = none →
      env.buyResult = some r →
      (∃ rec, (loopIter cfg st env).2 = .traded rec) ∧
      (loopIter cfg st env).1.trades_executed = st.trades_executed + 1 ∧
      (loopIter cfg st env).1.active = true ∧
      continuesLoop (loopIter cfg st env).2 = true := by
  constructor
  · have hparse : parseSwapAmountsFromReceipt logs tokenIn tokenOut wallet = (none, none) := by
      simp only [parseSwapAmountsFromReceipt]
      rcases hfail with h | h
      · rw [h]
        rcases (collectTransfers logs tokenIn tokenOut wallet).2.max? with _ | b <;> rfl
      · rw [h]
        rcases (collectTransfers logs tokenIn tokenOut wallet).1.max? with _ | a <;> rfl
    simp [swapReconciledAmounts, hparse, finalizeSwapAmounts]
  · intro cfg st env bal r hactive hmax hmin hbal hside hquote hpos hbuyres
    have hmax2 : ¬(env.maxTradesPerSession ≤ st.trades_executed) := by omega
    have hmin2 : ¬(getTradeAmount cfg < cfg.min_notional) := not_lt.2 hmin
    have hquote2 : ¬(bal.quote < getTradeAmount cfg) := not_lt.2 hquote
    have hbuy : loopSide st.pattern_index = "BUY" := loopSide_buy_of_mod _ hside
    have h1 : loopIter cfg st env = execBuy st env := by
      simp [loopIter, hactive, hmax2, hmin2, hbal, hbuy, hquote2, hpos]
    rw [h1]
    simp [execBuy, hbuyres, continuesLoop, hactive]

/-- Witness for C4: an empty receipt yields no transfers, so the result
falls back to 1000 raw in (10 with 2 decimals) and 500 raw expected out
(0.5 with 3 decimals) and is flagged, while a loop iteration with a swap
result counts the trade and continues. -/
theorem c4_reconciliation_fallback_witness :
    swapReconciledAmounts [] 1 2 3 1000 500 2 3
      = ((1000 : ℚ) / 10 ^ 2, (500 : ℚ) / 10 ^ 3, true) ∧
    (∃ rec, (loopIter ⟨1, 1000, 2, 60, 50, 10, none⟩
        ⟨1, true, 0, 0, 0, 0, 0, some 0, none, none⟩
        ⟨5, 1000, some ⟨0, 100⟩, none, some ⟨20, 1, "0xabc", 21000, 5⟩, none⟩).2
      = .traded rec) ∧
    (loopIter ⟨1, 1000, 2, 60, 50, 10, none⟩ ⟨1, true, 0, 0, 0, 0, 0, some 0, none, none⟩
        ⟨5, 1000, some ⟨0, 100⟩, none, some ⟨20, 1, "0xabc", 21000, 5⟩, none⟩).1.trades_executed
      = 0 + 1 := by
  have h := c4_reconciliation_fallback [] 1 2 3 1000 500 2 3 (Or.inl rfl)
  have h2 := h.2 ⟨1, 1000, 2, 60, 50, 10, none⟩ ⟨1, true, 0, 0, 0, 0, 0, some 0, none, none⟩
    ⟨5, 1000, some ⟨0, 100⟩, none, some ⟨20, 1, "0xabc", 21000, 5⟩, none⟩ ⟨0, 100⟩
    ⟨20, 1, "0xabc", 21000, 5⟩ rfl (by norm_num) (by norm_num [getTradeAmount]) rfl
    (Or.inl rfl) (by norm_num [getTradeAmount]) rfl rfl
  exact ⟨h.1, h2.1, h2.2.1⟩

/-- The capped valuation never exceeds 4. -/
theorem v10cap4_le_four (k : Nat) : v10cap4 k ≤ 4 := by
  unfold v10cap4
  split_ifs <;> norm_num

/-- `10 ^ v10cap4 k` divides `k`. -/
theorem pow_v10cap4_dvd (k : Nat) : 10 ^ v10cap4 k ∣ k := by
  unfold v10cap4
  split_ifs with h1 h2 h3 h4
  · simp
  · simpa using Nat.dvd_of_mod_eq_zero (by omega : k % 10 = 0)
  · have : (100 : Nat) ∣ k := Nat.dvd_of_mod_eq_zero (by omega : k % 100 = 0)
    simpa [show (10 : Nat) ^ 2 = 100 by norm_num] using this
  · have : (1000 : Nat) ∣ k := Nat.dvd_of_mod_eq_zero (by omega : k % 1000 = 0)
    simpa [show (10 : Nat) ^ 3 = 1000 by norm_num] using this
  · have : (10000 : Nat) ∣ k := Nat.dvd_of_mod_eq_zero (by omega : k % 10000 = 0)
    simpa [show (10 : Nat) ^ 4 = 10000 by norm_num] using this

/-- C1 (amended): for every slippage_bps in [0, 10000] and every
expected_out small enough that the decimal product keeps at most 28
significant digits — in particular for every expected_out < 10^24 — the
computed minimum output equals
floor(expected_out × (10000 − slippage_bps) / 10000) exactly.  (The
unamended claim over every non-negative expected_out fails: the default
decimal context rounds products beyond 28 significant digits, see the
counterexample.) -/
theorem c1_amount_out_min_amended (expected_out slippage_bps : Nat)
    (hbps : slippage_bps ≤ 10000) (hsmall : expected_out < 10 ^ 24) :
    decimalAmountOutMin expected_out slippage_bps
      = expected_out * (10000 - slippage_bps) / 10000 := by
  have htle : v10cap4 (10000 - slippage_bps) ≤ 4 := v10cap4_le_four _
  have hdvd : 10 ^ v10cap4 (10000 - slippage_bps) ∣ (10000 - slippage_bps) :=
    pow_v10cap4_dvd _
  have hm : (10000 - slippage_bps) / 10 ^ v10cap4 (10000 - slippage_bps)
      * 10 ^ v10cap4 (10000 - slippage_bps) = 10000 - slippage_bps :=
    Nat.div_mul_cancel hdvd
  have hmle : (10000 - slippage_bps) / 10 ^ v10cap4 (10000 - slippage_bps) ≤ 10 ^ 4 :=
    le_trans (Nat.div_le_self _ _) (by omega)
  have hP : expected_out * ((10000 - slippage_bps) / 10 ^ v10cap4 (10000 - slippage_bps))
      < 10 ^ 28 := by
    calc expected_out * ((10000 - slippage_bps) / 10 ^ v10cap4 (10000 - slippage_bps))
        ≤ expected_out * 10 ^ 4 := Nat.mul_le_mul_left _ hmle
      _ < 10 ^ 24 * 10 ^ 4 := (Nat.mul_lt_mul_right (by norm_num : (0 : Nat) < 10 ^ 4)).mpr hsmall
      _ = 10 ^ 28 := by norm_num
  have hnd : numDigits
      (expected_out * ((10000 - slippage_bps) / 10 ^ v10cap4 (10000 - slippage_bps))) ≤ 28 := by
    unfold numDigits
    split_ifs with h
    · omega
    · have := Nat.log_lt_of_lt_pow h hP
      omega
  simp only [decimalAmountOutMin]
  rw [if_pos hnd]
  have hpow : (0 : Nat) < 10 ^ v10cap4 (10000 - slippage_bps) :=
    pow_pos (by norm_num) _
  calc expected_out * ((10000 - slippage_bps) / 10 ^ v10cap4 (10000 - slippage_bps))
      / 10 ^ (4 - v10cap4 (10000 - slippage_bps))
      = expected_out * ((10000 - slippage_bps) / 10 ^ v10cap4 (10000 - slippage_bps))
        * 10 ^ v10cap4 (10000 - slippage_bps)
        / (10 ^ (4 - v10cap4 (10000 - slippage_bps)) * 10 ^ v10cap4 (10000 - slippage_bps)) :=
        (Nat.mul_div_mul_right _ _ hpow).symm
    _ = expected_out * (10000 - slippage_bps) / 10000 := by
        rw [mul_assoc, hm, ← pow_add,
          show 4 - v10cap4 (10000 - slippage_bps) + v10cap4 (10000 - slippage_bps) = 4
            from by omega]
        norm_num

/-- Witness for C1 (amended) at the spec's example: expected_out = 1000
with slippage_bps = 50 gives amount_out_min = 995. -/
theorem c1_amount_out_min_amended_witness :
    (50 : Nat) ≤ 10000 ∧ (1000 : Nat) < 10 ^ 24 ∧ decimalAmountOutMin 1000 50 = 995 :=
  ⟨by norm_num, by norm_num,
    (c1_amount_out_min_amended 1000 50 (by norm_num) (by norm_num)).trans (by norm_num)⟩

/-- Counterexample to C1 as stated: at expected_out = 10^26 + 1 and
slippage_bps = 50 the default decimal context rounds the 29-digit product
half-even up, so the computed minimum output exceeds the exact floor by
one. -/
theorem c1_amount_out_min_counterexample :
    decimalAmountOutMin (10 ^ 26 + 1) 50 ≠ (10 ^ 26 + 1) * (10000 - 50) / 10000 := by
  have hv : v10cap4 (10000 - 50) = 1 := by norm_num [v10cap4]
  have hlog : Nat.log 10 99500000000000000000000000995 = 28 :=
    Nat.log_eq_of_pow_le_of_lt_pow (by norm_num) (by norm_num)
  have hP1 : (10 ^ 26 + 1) * ((10000 - 50) / 10 ^ 1) = 99500000000000000000000000995 := by
    norm_num
  have hnd : numDigits 99500000000000000000000000995 = 29 := by
    rw [numDigits, if_neg (by norm_num), hlog]
  have hrhe : roundHalfEven 99500000000000000000000000995 (10 ^ (29 - 28))
      = 9950000000000000000000000100 := by
    rw [roundHalfEven]
    norm_num
  simp only [decimalAmountOutMin, hv, hP1, hnd]
  rw [if_neg (by norm_num : ¬(29 : Nat) ≤ 28)]
  rw [if_neg (by norm_num : ¬(4 - 1 : Nat) ≤ 29 - 28)]
  rw [hrhe]
  norm_num

/-- An `ensure_allowance` call never submits the swap transaction. -/
theorem ensureAllowance_count_submitSwap (o : AllowOracle) (R : Nat) :
    ((ensureAllowanceTrace o R).1).count .submitSwap = 0 := by
  simp only [ensureAllowanceTrace]
  split_ifs <;>
    simp [rpcCallWithRetryTrace, List.count_replicate, List.count_append, List.count_cons]

/-- An `ensure_allowance` call submits at most one approval transaction. -/
theorem ensureAllowance_count_submitApproval (o : AllowOracle) (R : Nat) :
    ((ensureAllowanceTrace o R).1).count .submitApproval ≤ 1 := by
  simp only [ensureAllowanceTrace]
  split_ifs <;>
    simp [rpcCallWithRetryTrace, List.count_replicate, List.count_append, List.count_cons]

/-- C2: in every single call of swap_exact_quote_for_base and of
swap_exact_base_for_quote, whatever the outcome of every chain
interaction, the signed swap transaction is submitted at most once (and so
is any approval): submission is never placed under the retry-with-backoff
mechanism, which wraps only read-only chain queries. -/
theorem c2_swap_submitted_at_most_once (o : SwapOracle) (priceFailures maxRetries : Nat) :
    (swapSubmitTrace o maxRetries).count .submitSwap ≤ 1 ∧
    (swapSubmitTrace o maxRetries).count .submitApproval ≤ 1 ∧
    (sellSwapSubmitTrace o priceFailures maxRetries).count .submitSwap ≤ 1 ∧
    (sellSwapSubmitTrace o priceFailures maxRetries).count .submitApproval ≤ 1 := by
  have h1 : (swapSubmitTrace o maxRetries).count .submitSwap ≤ 1 := by
    simp only [swapSubmitTrace]
    split_ifs <;>
      simp [rpcCallWithRetryTrace, List.count_replicate, List.count_append, List.count_cons,
        ensureAllowance_count_submitSwap]
  have h2 : (swapSubmitTrace o maxRetries).count .submitApproval ≤ 1 := by
    have ha := ensureAllowance_count_submitApproval o.allow maxRetries
    simp only [swapSubmitTrace]
    split_ifs <;>
      simp [rpcCallWithRetryTrace, List.count_replicate, List.count_append, List.count_cons] <;>
      omega
  have h3 : (sellSwapSubmitTrace o priceFailures maxRetries).count .submitSwap ≤ 1 := by
    simp only [sellSwapSubmitTrace]
    split_ifs <;>
      simp [rpcCallWithRetryTrace, List.count_replicate, List.count_append, h1]
  have h4 : (sellSwapSubmitTrace o priceFailures maxRetries).count .submitApproval ≤ 1 := by
    simp only [sellSwapSubmitTrace]
    split_ifs <;>
      simp [rpcCallWithRetryTrace, List.count_replicate, List.count_append, h2]
  exact ⟨h1, h2, h3, h4⟩

end DexBot
